import Mathlib

/-!
Shallow embedding of `lib/cretonne/src/ir/types.rs`: the packed value-type
code of the Cretonne IR.  A `Type` is a `u8` split into two nibbles
(low nibble: scalar lane-type code; high nibble: log2 of the lane count).
We embed the byte as a `Nat`; the byte operations of the source are written
with their arithmetic meaning where the source uses shifts and masks on a
byte value `t < 256`:
  `t & 0x0f = t % 16`, `t >> 4 = t / 16`,
and with Lean's genuine `Nat.land` / `Nat.lor` where the source combines a
lane nibble with the preserved high nibble.
-/

set_option maxRecDepth 100000

namespace Cretonne

/-- From src: `pub const VOID: Type = Type(0);`. -/
def VOID : Nat := 0

/-- Modelled from the spec: the scalar constants `B1 … F64` come from the
generated file `lib/cretonne/meta/gen_types.py` output, which is not under
`src/`.  The spec fixes the families and widths (bool 1/8/16/32/64,
int 8/16/32/64, float 32/64), that each is a distinct low-nibble lane-type
code (so the value fits in 4 bits), that `VOID = 0`, and that the exact
numbering is an implementation choice ("the exact numeric values are an
implementation choice; only the relative arithmetic relationships … are
load-bearing").  We number them sequentially. -/
def B1 : Nat := 1

/-- Modelled from the spec: see `B1`. Scalar 8-bit boolean. -/
def B8 : Nat := 2

/-- Modelled from the spec: see `B1`. Scalar 16-bit boolean. -/
def B16 : Nat := 3

/-- Modelled from the spec: see `B1`. Scalar 32-bit boolean. -/
def B32 : Nat := 4

/-- Modelled from the spec: see `B1`. Scalar 64-bit boolean. -/
def B64 : Nat := 5

/-- Modelled from the spec: see `B1`. Scalar 8-bit integer. -/
def I8 : Nat := 6

/-- Modelled from the spec: see `B1`. Scalar 16-bit integer. -/
def I16 : Nat := 7

/-- Modelled from the spec: see `B1`. Scalar 32-bit integer. -/
def I32 : Nat := 8

/-- Modelled from the spec: see `B1`. Scalar 64-bit integer. -/
def I64 : Nat := 9

/-- Modelled from the spec: see `B1`. Scalar 32-bit float. -/
def F32 : Nat := 10

/-- Modelled from the spec: see `B1`. Scalar 64-bit float. -/
def F64 : Nat := 11

/-- `Type::lane_type`: `Type(self.0 & 0x0f)` — clear the high nibble.
For a byte, `t & 0x0f = t % 16`. -/
def lane_type (t : Nat) : Nat := t % 16

/-- `Type::log2_lane_count`: `self.0 >> 4`.  For a byte, `t >> 4 = t / 16`. -/
def log2_lane_count (t : Nat) : Nat := t / 16

/-- `Type::log2_lane_bits`: match on `lane_type()`. -/
def log2_lane_bits (t : Nat) : Nat :=
  let l := lane_type t
  if l = B1 then 0
  else if l = B8 ∨ l = I8 then 3
  else if l = B16 ∨ l = I16 then 4
  else if l = B32 ∨ l = I32 ∨ l = F32 then 5
  else if l = B64 ∨ l = I64 ∨ l = F64 then 6
  else 0

/-- `Type::lane_bits`: match on `lane_type()`; `0` in the default arm. -/
def lane_bits (t : Nat) : Nat :=
  let l := lane_type t
  if l = B1 then 1
  else if l = B8 ∨ l = I8 then 8
  else if l = B16 ∨ l = I16 then 16
  else if l = B32 ∨ l = I32 ∨ l = F32 then 32
  else if l = B64 ∨ l = I64 ∨ l = F64 then 64
  else 0

/-- `Type::as_bool_pedantic`: replace the low 4 bits with the boolean
version, preserve the high 4 bits: `Type(lane.0 | (self.0 & 0xf0))`. -/
def as_bool_pedantic (t : Nat) : Nat :=
  let l := lane_type t
  let lane : Nat :=
    if l = B8 ∨ l = I8 then B8
    else if l = B16 ∨ l = I16 then B16
    else if l = B32 ∨ l = I32 ∨ l = F32 then B32
    else if l = B64 ∨ l = I64 ∨ l = F64 then B64
    else B1
  Nat.lor lane (Nat.land t 0xf0)

/-- `Type::log2_lane_count()` comparison used by `is_scalar`. -/
def is_scalar (t : Nat) : Bool := log2_lane_count t == 0

/-- `Type::as_bool`: scalars collapse to `B1`; vectors delegate to
`as_bool_pedantic`. -/
def as_bool (t : Nat) : Nat :=
  if is_scalar t then B1 else as_bool_pedantic t

/-- `Type::half_width`: match on `lane_type()`; on success
`Type(lane.0 | (self.0 & 0xf0))`. -/
def half_width (t : Nat) : Option Nat :=
  let l := lane_type t
  let lane : Option Nat :=
    if l = I16 then some I8
    else if l = I32 then some I16
    else if l = I64 then some I32
    else if l = F64 then some F32
    else if l = B16 then some B8
    else if l = B32 then some B16
    else if l = B64 then some B32
    else none
  lane.map fun la => Nat.lor la (Nat.land t 0xf0)

/-- `Type::double_width`: match on `lane_type()`; on success
`Type(lane.0 | (self.0 & 0xf0))`. -/
def double_width (t : Nat) : Option Nat :=
  let l := lane_type t
  let lane : Option Nat :=
    if l = I8 then some I16
    else if l = I16 then some I32
    else if l = I32 then some I64
    else if l = F32 then some F64
    else if l = B8 then some B16
    else if l = B16 then some B32
    else if l = B32 then some B64
    else none
  lane.map fun la => Nat.lor la (Nat.land t 0xf0)

/-- `Type::is_void`: `self == VOID` — compares the whole byte. -/
def is_void (t : Nat) : Bool := t == VOID

/-- `Type::is_bool`: whole-byte match against the scalar boolean constants. -/
def is_bool (t : Nat) : Bool :=
  t == B1 || t == B8 || t == B16 || t == B32 || t == B64

/-- `Type::is_int`: whole-byte match against the scalar integer constants. -/
def is_int (t : Nat) : Bool :=
  t == I8 || t == I16 || t == I32 || t == I64

/-- `Type::is_float`: whole-byte match against the scalar float constants. -/
def is_float (t : Nat) : Bool :=
  t == F32 || t == F64

/-- `Type::lane_count`: `1 << log2_lane_count()`. -/
def lane_count (t : Nat) : Nat := 2 ^ log2_lane_count t

/-- `Type::bits`: `self.lane_bits() as u16 * self.lane_count()`; the
multiplication is in `u16`, hence the `% 2^16`. -/
def bits (t : Nat) : Nat := lane_bits t * lane_count t % 65536

/-- Rust `u16::count_ones`, written structurally on a fuel of 16 bits
(`n < 2^16` is the `u16` range, so 16 division steps reach 0). -/
def count_ones_aux : Nat → Nat → Nat
  | 0, _ => 0
  | fuel + 1, n => n % 2 + count_ones_aux fuel (n / 2)

/-- Rust `u16::is_power_of_two`: `count_ones() == 1`. -/
def is_power_of_two (n : Nat) : Bool := count_ones_aux 16 n == 1

/-- Rust `u16::trailing_zeros`, written structurally on a fuel of 16 bits;
for `n = 0` all 16 steps are taken, giving 16, as in Rust. -/
def trailing_zeros_aux : Nat → Nat → Nat
  | 0, _ => 0
  | fuel + 1, n => if n % 2 = 1 then 0 else trailing_zeros_aux fuel (n / 2) + 1

/-- Rust `u16::trailing_zeros`. -/
def trailing_zeros (n : Nat) : Nat :=
  if n = 0 then 16 else trailing_zeros_aux 16 n

/-- `Type::by`: `None` when the lane width is 0 or `n` is not a power of
two; otherwise add `n.trailing_zeros() << 4` to the byte and check the
result stays below `0x90` (high nibble at most 8).  The additions are done
in `u32` in the source, wide enough that no wrap occurs for a byte plus
`trailing_zeros(u16) << 4`, so plain `Nat` addition is exact.  (Source name
`by`, a keyword in Lean.) -/
def by_n (t n : Nat) : Option Nat :=
  if lane_bits t == 0 || !(is_power_of_two n) then none
  else
    let log2_lanes := trailing_zeros n
    let new_type := t + log2_lanes * 16
    if new_type < 0x90 then some new_type else none

/-- `Type::half_vector`: `None` for scalars, else subtract `0x10`
(decrement the high nibble).  No underflow: a non-scalar byte is ≥ 0x10. -/
def half_vector (t : Nat) : Option Nat :=
  if is_scalar t then none else some (t - 0x10)

/-- Lower-case hex digit, as produced by Rust's fmt. -/
def hexDigit (n : Nat) : Char :=
  if n < 10 then Char.ofNat (48 + n) else Char.ofNat (87 + n)

/-- Lower-case hex rendering of a byte without leading zeros, as produced
by Rust's fmt on `u8`. -/
def hexStr (b : Nat) : String :=
  if b < 16 then String.mk [hexDigit b]
  else String.mk [hexDigit (b / 16), hexDigit (b % 16)]

/-- The `Display` impl restricted to scalar inputs: the four leading
branches (`void` / `b` / `i` / `f`); for a scalar none of the remaining
branches can match, so the source falls through to
`panic!("Invalid Type(...)")`, which we model as `none`.  The recursive
`write!("{}x{}", self.lane_type(), …)` of the vector branch always formats
a scalar (`lane_type` clears the high nibble), so the full impl is
`display` below, built over this function. -/
def display_scalar (t : Nat) : Option String :=
  if is_void t then some "void"
  else if is_bool t then some ("b" ++ toString (lane_bits t))
  else if is_int t then some ("i" ++ toString (lane_bits t))
  else if is_float t then some ("f" ++ toString (lane_bits t))
  else none

/-- `impl Display for Type`: `"void"`, `"b{}"`, `"i{}"`, `"f{}"` on the
scalar constants, `"{}x{}"` (lane rendering, recursively) on non-scalars,
and `panic!` (modelled as `none`, propagated from a panicking lane
rendering as well) otherwise. -/
def display (t : Nat) : Option String :=
  if is_void t then some "void"
  else if is_bool t then some ("b" ++ toString (lane_bits t))
  else if is_int t then some ("i" ++ toString (lane_bits t))
  else if is_float t then some ("f" ++ toString (lane_bits t))
  else if !(is_scalar t) then
    match display_scalar (lane_type t) with
    | some s => some (s ++ "x" ++ toString (lane_count t))
    | none => none
  else none

/-- The `Debug` impl restricted to scalar inputs: qualified-name branches,
and for a byte matching none of them the fallback
`write!(f, "Type(0x{:x})", self.0)` — a produced string, not a panic. -/
def debug_scalar (t : Nat) : String :=
  if is_void t then "types::VOID"
  else if is_bool t then "types::B" ++ toString (lane_bits t)
  else if is_int t then "types::I" ++ toString (lane_bits t)
  else if is_float t then "types::F" ++ toString (lane_bits t)
  else "Type(0x" ++ hexStr t ++ ")"

/-- `impl Debug for Type`: like `Display` but with qualified names, `"X"`
as the vector separator (`write!("{:?}X{}", self.lane_type(), …)`, the lane
formatted recursively — always a scalar), and a total fallback
`"Type(0x{:x})"` instead of a panic.  No branch can abort. -/
def debug_fmt (t : Nat) : String :=
  if is_void t then "types::VOID"
  else if is_bool t then "types::B" ++ toString (lane_bits t)
  else if is_int t then "types::I" ++ toString (lane_bits t)
  else if is_float t then "types::F" ++ toString (lane_bits t)
  else if !(is_scalar t) then
    debug_scalar (lane_type t) ++ "X" ++ toString (lane_count t)
  else "Type(0x" ++ hexStr t ++ ")"

/-- The defined scalar lane-type codes (spec §3: void, booleans 1/8/16/32/64,
integers 8/16/32/64, floats 32/64). -/
def definedLane (l : Nat) : Prop :=
  l = VOID ∨ l = B1 ∨ l = B8 ∨ l = B16 ∨ l = B32 ∨ l = B64 ∨
  l = I8 ∨ l = I16 ∨ l = I32 ∨ l = I64 ∨ l = F32 ∨ l = F64

instance (l : Nat) : Decidable (definedLane l) := by
  unfold definedLane; infer_instance

/-- Well-formed packed codes (spec §3): a byte whose low nibble is a defined
lane-type code, whose high nibble (log2 lane count) is at most 8, and where
a void lane type forces a zero high nibble (void cannot be vectorized). -/
def WellFormed (t : Nat) : Prop :=
  t < 256 ∧ definedLane (lane_type t) ∧ log2_lane_count t ≤ 8 ∧
    (lane_type t = VOID → log2_lane_count t = 0)

instance (t : Nat) : Decidable (WellFormed t) := by
  unfold WellFormed; infer_instance

/-- Written from the spec's words (§4.4) for comparison with `display`:
the text form of a scalar class is `"void"`, `"b<bits>"`, `"i<bits>"` or
`"f<bits>"` where `<bits>` is the lane-bit width of the class. -/
def displaySpecScalar (l : Nat) : String :=
  if l = VOID then "void"
  else if l = B1 ∨ l = B8 ∨ l = B16 ∨ l = B32 ∨ l = B64 then
    "b" ++ toString (lane_bits l)
  else if l = I8 ∨ l = I16 ∨ l = I32 ∨ l = I64 then
    "i" ++ toString (lane_bits l)
  else if l = F32 ∨ l = F64 then
    "f" ++ toString (lane_bits l)
  else ""

/-- Written from the spec's words (§4.4) for comparison with `display`:
vectors (lane count > 1) render as `"<lane-text>x<lane-count>"` with the
lane text computed on the scalar lane type; scalars render directly. -/
def displaySpec (t : Nat) : String :=
  if 1 < lane_count t then
    displaySpecScalar (lane_type t) ++ "x" ++ toString (lane_count t)
  else displaySpecScalar t

/-! ## Helper lemmas -/

/-- On the `u16` range, `count_ones_aux` is zero exactly on zero. -/
lemma count_ones_aux_eq_zero :
    ∀ (f m : Nat), m < 2 ^ f → (count_ones_aux f m = 0 ↔ m = 0)
  | 0, m, h => by
    have hm : m = 0 := by simpa using h
    subst hm; simp [count_ones_aux]
  | f + 1, m, h => by
    have hpow : 2 ^ (f + 1) = 2 * 2 ^ f := by ring
    have h2 : m / 2 < 2 ^ f := by omega
    have ih := count_ones_aux_eq_zero f (m / 2) h2
    simp only [count_ones_aux]
    constructor
    · intro hc
      have h0 : count_ones_aux f (m / 2) = 0 := by omega
      have := ih.mp h0
      omega
    · intro hm
      subst hm
      have h0 : count_ones_aux f (0 / 2) = 0 := ih.mpr (by simp)
      simpa using h0

/-- On the `u16` range, `count_ones_aux` is one exactly on the powers of
two. -/
lemma count_ones_aux_eq_one :
    ∀ (f m : Nat), m < 2 ^ f → (count_ones_aux f m = 1 ↔ ∃ k, m = 2 ^ k)
  | 0, m, h => by
    have hm : m = 0 := by simpa using h
    subst hm
    simp only [count_ones_aux]
    constructor
    · omega
    · rintro ⟨k, hk⟩
      have := Nat.pos_pow_of_pos (n := 2) k (by norm_num)
      omega
  | f + 1, m, h => by
    have hpow : 2 ^ (f + 1) = 2 * 2 ^ f := by ring
    have h2 : m / 2 < 2 ^ f := by omega
    have ih1 := count_ones_aux_eq_one f (m / 2) h2
    have ih0 := count_ones_aux_eq_zero f (m / 2) h2
    simp only [count_ones_aux]
    constructor
    · intro hc
      rcases Nat.mod_two_eq_zero_or_one m with he | ho
      · have h1 : count_ones_aux f (m / 2) = 1 := by omega
        obtain ⟨k, hk⟩ := ih1.mp h1
        refine ⟨k + 1, ?_⟩
        rw [pow_succ]
        omega
      · have h0 : count_ones_aux f (m / 2) = 0 := by omega
        have := ih0.mp h0
        refine ⟨0, ?_⟩
        have hm : m = 1 := by omega
        simp [hm]
    · rintro ⟨k, rfl⟩
      cases k with
      | zero =>
        have h0 : count_ones_aux f 0 = 0 :=
          (count_ones_aux_eq_zero f 0 (Nat.pos_pow_of_pos f (by norm_num))).mpr rfl
        simpa [count_ones_aux] using h0
      | succ j =>
        have he : 2 ^ (j + 1) % 2 = 0 := by rw [pow_succ]; omega
        have hd : 2 ^ (j + 1) / 2 = 2 ^ j := by rw [pow_succ]; omega
        have h1 : count_ones_aux f (2 ^ (j + 1) / 2) = 1 := ih1.mpr ⟨j, hd⟩
        omega

/-- Exponent bound: a power of two below `2^16` has exponent below 16. -/
lemma pow_lt_16 {n k : Nat} (hn : n < 65536) (hk : n = 2 ^ k) : k < 16 := by
  by_contra hge
  push_neg at hge
  have : (65536 : Nat) ≤ 2 ^ k := by
    calc (65536 : Nat) = 2 ^ 16 := by norm_num
    _ ≤ 2 ^ k := Nat.pow_le_pow_right (by norm_num) hge
  omega

/-- The embedded `u16::is_power_of_two` agrees with the mathematical
power-of-two property on the `u16` range. -/
lemma is_power_of_two_iff {n : Nat} (hn : n < 65536) :
    is_power_of_two n = true ↔ ∃ k, n = 2 ^ k := by
  have hb : n < 2 ^ 16 := by norm_num; omega
  unfold is_power_of_two
  rw [beq_iff_eq]
  exact count_ones_aux_eq_one 16 n hb

/-- `trailing_zeros` computes the exponent on powers of two in range. -/
lemma trailing_zeros_two_pow : ∀ k < 16, trailing_zeros (2 ^ k) = k := by
  decide

/-- `is_power_of_two` accepts every power of two in range. -/
lemma is_power_of_two_two_pow : ∀ k < 16, is_power_of_two (2 ^ k) = true := by
  decide

/-- Well-formedness is preserved by the byte-only operations; decidable
form over all bytes, shared by the preservation theorem. -/
lemma wf_preserved_dec :
    ∀ t < 256, WellFormed t →
      WellFormed (lane_type t) ∧ WellFormed (as_bool t) ∧
      WellFormed (as_bool_pedantic t) ∧
      WellFormed ((half_width t).getD t) ∧
      WellFormed ((double_width t).getD t) := by
  decide

/-- A well-formed code with a nonzero lane width has a non-void lane type. -/
lemma lane_bits_ne_zero_not_void :
    ∀ t < 256, lane_bits t ≠ 0 → lane_type t ≠ VOID := by
  decide

/-! ## Claims -/

/-- C1, counterexample: the scalar 8-bit boolean `B8` is well-formed,
scalar, neither void nor the claimed narrowest boolean width `B1`, yet
`half_width B8` is undefined — so the claimed round trip
`double_width (half_width B8) = some B8` fails at `B8` (the source's own
test asserts `B8.half_width() == None`). -/
theorem c1_counterexample_b8 :
    WellFormed B8 ∧ is_scalar B8 = true ∧ B8 ≠ VOID ∧ B8 ≠ B1 ∧
      half_width B8 = none := by
  decide

/-- C1, amended: for every scalar well-formed code `t` that is none of
void, `B1`, `B8`, `I8`, `F32` (the width classes with no narrower
representation — in the boolean family both `B1` and `B8` lack one),
`half_width t` is defined and `double_width` takes it back to `t`. -/
theorem c1_half_width_double_width_roundtrip (t : Nat) (ht : WellFormed t)
    (hs : is_scalar t = true) (h0 : t ≠ VOID) (h1 : t ≠ B1) (h2 : t ≠ B8)
    (h3 : t ≠ I8) (h4 : t ≠ F32) :
    half_width t ≠ none ∧ (half_width t).bind double_width = some t := by
  have H : ∀ s, s < 256 →
      (WellFormed s ∧ is_scalar s = true ∧
        ¬(s = VOID ∨ s = B1 ∨ s = B8 ∨ s = I8 ∨ s = F32)) →
      ¬half_width s = none ∧ (half_width s).bind double_width = some s := by
    decide
  exact H t ht.1 ⟨ht, hs, by rintro (h | h | h | h | h) <;> simp_all⟩

/-- C1, witness: the amended round trip at the scalar 32-bit integer. -/
theorem c1_witness :
    WellFormed I32 ∧
      (half_width I32 ≠ none ∧ (half_width I32).bind double_width = some I32) :=
  ⟨by decide,
    c1_half_width_double_width_roundtrip I32 (by decide) (by decide)
      (by decide) (by decide) (by decide) (by decide) (by decide)⟩

/-- C3, counterexample: the byte `15` is a malformed scalar code (scalar,
and not void / bool / int / float), the text rendering panics on it
(modelled `none`), yet `Debug` does not abort: it produces the fallback
string `"Type(0xf)"`.  So `Debug` does not apply the same fatal-violation
policy as the text rendering. -/
theorem c3_counterexample_debug_no_panic :
    is_scalar 15 = true ∧ is_void 15 = false ∧ is_bool 15 = false ∧
      is_int 15 = false ∧ is_float 15 = false ∧ display 15 = none ∧
      debug_fmt 15 = "Type(0xf)" := by
  decide

/-- C3, amended: Debug-formatting a malformed scalar code does not abort;
while the text rendering panics on such a code, `Debug` falls back to the
string `"Type(0x<hex>)"` built from the raw byte. -/
theorem c3_debug_malformed_fallback (t : Nat) (hb : t < 256)
    (hs : is_scalar t = true) (hv : is_void t = false)
    (hbo : is_bool t = false) (hi : is_int t = false)
    (hf : is_float t = false) :
    debug_fmt t = "Type(0x" ++ hexStr t ++ ")" ∧ display t = none := by
  have H : ∀ s, s < 256 →
      (is_scalar s = true ∧ is_void s = false ∧ is_bool s = false ∧
        is_int s = false ∧ is_float s = false) →
      debug_fmt s = "Type(0x" ++ hexStr s ++ ")" ∧ display s = none := by
    decide
  exact H t hb ⟨hs, hv, hbo, hi, hf⟩

/-- C3, witness: the amended fallback behaviour at the malformed scalar
byte `12`. -/
theorem c3_witness :
    (12 : Nat) < 256 ∧
      (debug_fmt 12 = "Type(0x" ++ hexStr 12 ++ ")" ∧ display 12 = none) :=
  ⟨by decide,
    c3_debug_malformed_fallback 12 (by decide) (by decide) (by decide)
      (by decide) (by decide) (by decide)⟩

/-- C4: on every well-formed scalar code (void included) `as_bool` returns
the 1-bit boolean `B1`; on every well-formed vector code it agrees with
`as_bool_pedantic`, keeping the lane-count nibble and replacing the lane
type by the boolean class of the same bit width. -/
theorem c4_as_bool (t : Nat) (ht : WellFormed t) :
    (is_scalar t = true → as_bool t = B1) ∧
      (is_scalar t = false →
        as_bool t = as_bool_pedantic t ∧
        log2_lane_count (as_bool t) = log2_lane_count t ∧
        is_bool (lane_type (as_bool t)) = true ∧
        lane_bits (as_bool t) = lane_bits t) := by
  have H : ∀ s, s < 256 → WellFormed s →
      (is_scalar s = true → as_bool s = B1) ∧
      (is_scalar s = false →
        as_bool s = as_bool_pedantic s ∧
        log2_lane_count (as_bool s) = log2_lane_count s ∧
        is_bool (lane_type (as_bool s)) = true ∧
        lane_bits (as_bool s) = lane_bits s) := by
    decide
  exact H t ht.1 ht

/-- C4, witness: `as_bool` at the 4-lane 32-bit integer vector (byte
`0x28`) and at the scalar `I32`. -/
theorem c4_witness :
    WellFormed 0x28 ∧
      ((is_scalar 0x28 = true → as_bool 0x28 = B1) ∧
        (is_scalar 0x28 = false →
          as_bool 0x28 = as_bool_pedantic 0x28 ∧
          log2_lane_count (as_bool 0x28) = log2_lane_count 0x28 ∧
          is_bool (lane_type (as_bool 0x28)) = true ∧
          lane_bits (as_bool 0x28) = lane_bits 0x28)) :=
  ⟨by decide, c4_as_bool 0x28 (by decide)⟩

/-- C5: on well-formed codes, a vector (lane count > 1) satisfies none of
`is_void` / `is_bool` / `is_int` / `is_float`, and each predicate holds
exactly on the scalar constants of its family. -/
theorem c5_predicates_scalar_only (t : Nat) (ht : WellFormed t) :
    (1 < lane_count t →
      is_void t = false ∧ is_bool t = false ∧ is_int t = false ∧
        is_float t = false) ∧
      (is_void t = true ↔ t = VOID) ∧
      (is_bool t = true ↔ t = B1 ∨ t = B8 ∨ t = B16 ∨ t = B32 ∨ t = B64) ∧
      (is_int t = true ↔ t = I8 ∨ t = I16 ∨ t = I32 ∨ t = I64) ∧
      (is_float t = true ↔ t = F32 ∨ t = F64) := by
  have H : ∀ s, s < 256 → WellFormed s →
      (1 < lane_count s →
        is_void s = false ∧ is_bool s = false ∧ is_int s = false ∧
          is_float s = false) ∧
      (is_void s = true ↔ s = VOID) ∧
      (is_bool s = true ↔ s = B1 ∨ s = B8 ∨ s = B16 ∨ s = B32 ∨ s = B64) ∧
      (is_int s = true ↔ s = I8 ∨ s = I16 ∨ s = I32 ∨ s = I64) ∧
      (is_float s = true ↔ s = F32 ∨ s = F64) := by
    set_option synthInstance.maxSize 2000 in decide
  exact H t ht.1 ht

/-- C5, witness: the predicates at the 8-lane 1-bit boolean vector (byte
`0x31`), whose lane type is boolean yet which no scalar predicate
accepts. -/
theorem c5_witness :
    WellFormed 0x31 ∧
      ((1 < lane_count 0x31 →
        is_void 0x31 = false ∧ is_bool 0x31 = false ∧ is_int 0x31 = false ∧
          is_float 0x31 = false) ∧
      (is_void 0x31 = true ↔ (0x31 : Nat) = VOID) ∧
      (is_bool 0x31 = true ↔
        (0x31 : Nat) = B1 ∨ (0x31 : Nat) = B8 ∨ (0x31 : Nat) = B16 ∨
          (0x31 : Nat) = B32 ∨ (0x31 : Nat) = B64) ∧
      (is_int 0x31 = true ↔
        (0x31 : Nat) = I8 ∨ (0x31 : Nat) = I16 ∨ (0x31 : Nat) = I32 ∨
          (0x31 : Nat) = I64) ∧
      (is_float 0x31 = true ↔ (0x31 : Nat) = F32 ∨ (0x31 : Nat) = F64)) :=
  ⟨by decide, c5_predicates_scalar_only 0x31 (by decide)⟩

/-- C6: on every well-formed code the text rendering succeeds and equals
the format described by the spec — `"void"`, `"b<bits>"` / `"i<bits>"` /
`"f<bits>"` on scalars, `"<lane-text>x<lane-count>"` on vectors. -/
theorem c6_display_format (t : Nat) (ht : WellFormed t) :
    display t = some (displaySpec t) := by
  have H : ∀ s, s < 256 → WellFormed s → display s = some (displaySpec s) := by
    decide
  exact H t ht.1 ht

/-- C6, witness: the 4-lane 32-bit integer vector renders as `"i32x4"`. -/
theorem c6_witness :
    WellFormed 0x28 ∧ display 0x28 = some (displaySpec 0x28) ∧
      displaySpec 0x28 = "i32x4" :=
  ⟨by decide, c6_display_format 0x28 (by decide), by decide⟩

/-- C7: on every well-formed code the total bit width is the lane width
times the lane count, and it is zero on void. -/
theorem c7_bits_eq_lane_bits_mul_lane_count (t : Nat) (ht : WellFormed t) :
    bits t = lane_bits t * lane_count t ∧ (t = VOID → bits t = 0) := by
  have H : ∀ s, s < 256 → WellFormed s →
      bits s = lane_bits s * lane_count s ∧ (s = VOID → bits s = 0) := by
    decide
  exact H t ht.1 ht

/-- C7, witness: at the 4-lane 32-bit integer vector, 128 total bits. -/
theorem c7_witness :
    WellFormed 0x28 ∧
      (bits 0x28 = lane_bits 0x28 * lane_count 0x28 ∧
        ((0x28 : Nat) = VOID → bits 0x28 = 0)) :=
  ⟨by decide, c7_bits_eq_lane_bits_mul_lane_count 0x28 (by decide)⟩

/-- C2: `by_n t n` (source `Type::by`) fails exactly when `n` is not a
power of two, or the lane width of `t` is zero (e.g. void), or the
resulting log2 lane count `log2_lane_count t + log2 n` exceeds 8; on
success the lane type is unchanged and the lane count is multiplied
by `n`. -/
theorem c2_by_failure_and_success (t n : Nat) (_ht : WellFormed t)
    (hn : n < 65536) :
    (by_n t n = none ↔
      (∀ k, n ≠ 2 ^ k) ∨ lane_bits t = 0 ∨
        ∃ k, n = 2 ^ k ∧ 8 < log2_lane_count t + k) ∧
    (∀ u, by_n t n = some u →
      lane_type u = lane_type t ∧ lane_count u = lane_count t * n) := by
  rcases Classical.em (∃ k, n = 2 ^ k) with ⟨k, rfl⟩ | hnp
  · have hk : k < 16 := pow_lt_16 hn rfl
    have hpow : is_power_of_two (2 ^ k) = true := is_power_of_two_two_pow k hk
    have htz : trailing_zeros (2 ^ k) = k := trailing_zeros_two_pow k hk
    by_cases hz : lane_bits t = 0
    · have hbn : by_n t (2 ^ k) = none := by simp [by_n, hz]
      refine ⟨⟨fun _ => Or.inr (Or.inl hz), fun _ => hbn⟩, ?_⟩
      intro u hu; rw [hbn] at hu; exact Option.noConfusion hu
    · have hcond : (lane_bits t == 0 || !is_power_of_two (2 ^ k)) = false := by
        simp [hz, hpow]
      have hbn : by_n t (2 ^ k) =
          if t + k * 16 < 144 then some (t + k * 16) else none := by
        unfold by_n
        rw [hcond, htz]
        simp
      by_cases hlt : t + k * 16 < 144
      · rw [if_pos hlt] at hbn
        have hle : log2_lane_count t + k ≤ 8 := by
          simp only [log2_lane_count]; omega
        refine ⟨⟨?_, ?_⟩, ?_⟩
        · intro h; rw [hbn] at h; exact Option.noConfusion h
        · rintro (h | h | ⟨k2, hk2, hgt⟩)
          · exact absurd rfl (h k)
          · exact absurd h hz
          · have hkk : k = k2 := Nat.pow_right_injective (le_refl 2) hk2
            omega
        · intro u hu
          rw [hbn] at hu
          injection hu with h
          subst h
          constructor
          · simp only [lane_type]; omega
          · simp only [lane_count, log2_lane_count]
            have hdiv : (t + k * 16) / 16 = t / 16 + k := by omega
            rw [hdiv, pow_add]
      · rw [if_neg hlt] at hbn
        have hgt : 8 < log2_lane_count t + k := by
          simp only [log2_lane_count]; omega
        refine ⟨⟨fun _ => Or.inr (Or.inr ⟨k, rfl, hgt⟩), fun _ => hbn⟩, ?_⟩
        intro u hu; rw [hbn] at hu; exact Option.noConfusion hu
  · have hpow : is_power_of_two n = false := by
      cases hq : is_power_of_two n
      · rfl
      · exact absurd ((is_power_of_two_iff hn).mp hq) hnp
    have hbn : by_n t n = none := by simp [by_n, hpow]
    refine ⟨⟨fun _ => Or.inl fun k hk => hnp ⟨k, hk⟩, fun _ => hbn⟩, ?_⟩
    intro u hu; rw [hbn] at hu; exact Option.noConfusion hu

/-- C2, witness: growing the scalar 8-bit integer by 4 lanes succeeds with
the same lane type and 4 lanes (byte `0x26`). -/
theorem c2_witness :
    WellFormed I8 ∧ (4 : Nat) < 65536 ∧
      (lane_type 0x26 = lane_type I8 ∧ lane_count 0x26 = lane_count I8 * 4) :=
  ⟨by decide, by decide,
    (c2_by_failure_and_success I8 4 (by decide) (by decide)).2 0x26 (by decide)⟩

/-- C8: `half_vector` fails exactly on scalars; on success the log2 lane
count drops by one and the lane type is untouched. -/
theorem c8_half_vector_halves (t : Nat) (_ht : WellFormed t) :
    (half_vector t = none ↔ log2_lane_count t = 0) ∧
    (∀ u, half_vector t = some u →
      log2_lane_count u = log2_lane_count t - 1 ∧ lane_type u = lane_type t) := by
  rcases Nat.eq_zero_or_pos (t / 16) with h0 | hpos
  · have hs : is_scalar t = true := by simp [is_scalar, log2_lane_count, h0]
    have hnone : half_vector t = none := by simp [half_vector, hs]
    refine ⟨by simp [hnone, log2_lane_count, h0], ?_⟩
    intro u hu; rw [hnone] at hu; exact Option.noConfusion hu
  · have hs : is_scalar t = false := by
      simp only [is_scalar, log2_lane_count]
      simp only [beq_eq_false_iff_ne, ne_eq]
      omega
    have hsome : half_vector t = some (t - 16) := by simp [half_vector, hs]
    refine ⟨?_, ?_⟩
    · rw [hsome]
      simp only [log2_lane_count]
      constructor
      · intro h; exact Option.noConfusion h
      · intro h; omega
    · intro u hu
      rw [hsome] at hu
      injection hu with h
      subst h
      constructor
      · simp only [log2_lane_count]; omega
      · simp only [lane_type]; omega

/-- C8, witness: halving the 8-lane 1-bit boolean vector (byte `0x31`)
gives the 4-lane vector `0x21`; a scalar gives nothing. -/
theorem c8_witness :
    WellFormed 0x31 ∧
      (half_vector 0x31 = none ↔ log2_lane_count 0x31 = 0) ∧
      (log2_lane_count 0x21 = log2_lane_count 0x31 - 1 ∧
        lane_type 0x21 = lane_type 0x31) :=
  ⟨by decide, (c8_half_vector_halves 0x31 (by decide)).1,
    (c8_half_vector_halves 0x31 (by decide)).2 0x21 (by decide)⟩

/-- C9: every public operation that yields a code preserves
well-formedness — `lane_type`, `as_bool`, `as_bool_pedantic`, and the
`some`-results of `half_width`, `double_width`, `by_n` and
`half_vector`. -/
theorem c9_well_formedness_preserved (t : Nat) (ht : WellFormed t) :
    WellFormed (lane_type t) ∧ WellFormed (as_bool t) ∧
    WellFormed (as_bool_pedantic t) ∧
    (∀ u, half_width t = some u → WellFormed u) ∧
    (∀ u, double_width t = some u → WellFormed u) ∧
    (∀ n u, by_n t n = some u → WellFormed u) ∧
    (∀ u, half_vector t = some u → WellFormed u) := by
  obtain ⟨hb, hdl, hc, hv⟩ := ht
  have base := wf_preserved_dec t hb ⟨hb, hdl, hc, hv⟩
  refine ⟨base.1, base.2.1, base.2.2.1, ?_, ?_, ?_, ?_⟩
  · intro u hu
    have h := base.2.2.2.1
    rw [hu] at h
    simpa using h
  · intro u hu
    have h := base.2.2.2.2
    rw [hu] at h
    simpa using h
  · intro n u hu
    simp only [by_n] at hu
    split at hu
    · exact Option.noConfusion hu
    · next hcond =>
      split at hu
      · next hlt =>
        injection hu with h
        subst h
        have hz : lane_bits t ≠ 0 := by
          intro h0
          exact hcond (by simp [h0])
        have hmod : lane_type (t + trailing_zeros n * 16) = lane_type t := by
          simp only [lane_type]; omega
        refine ⟨by omega, ?_, ?_, ?_⟩
        · rw [hmod]; exact hdl
        · simp only [log2_lane_count]; omega
        · intro hv2
          rw [hmod] at hv2
          exact absurd hv2 (lane_bits_ne_zero_not_void t hb hz)
      · exact Option.noConfusion hu
  · intro u hu
    simp only [half_vector] at hu
    split at hu
    · exact Option.noConfusion hu
    · next hsc =>
      injection hu with h
      subst h
      have hge : 16 ≤ t := by
        simp only [is_scalar, log2_lane_count, beq_iff_eq] at hsc
        omega
      have hmod : lane_type (t - 16) = lane_type t := by
        simp only [lane_type]; omega
      refine ⟨by omega, by rw [hmod]; exact hdl, ?_, ?_⟩
      · simp only [log2_lane_count] at hc ⊢; omega
      · intro hv2
        rw [hmod] at hv2
        have h0 := hv hv2
        simp only [log2_lane_count] at h0 ⊢
        omega

/-- C9, witness: preservation instantiated at the 4-lane 32-bit integer
vector `0x28` (its lane type, boolean conversions, half/double width
`0x27` / `0x29`, growth by 2 lanes `0x38`, and half vector `0x18`). -/
theorem c9_witness :
    WellFormed 0x28 ∧ WellFormed (lane_type 0x28) ∧
      WellFormed (as_bool 0x28) ∧ WellFormed (as_bool_pedantic 0x28) ∧
      WellFormed 0x27 ∧ WellFormed 0x29 ∧ WellFormed 0x38 ∧
      WellFormed 0x18 :=
  ⟨by decide, (c9_well_formedness_preserved 0x28 (by decide)).1,
    (c9_well_formedness_preserved 0x28 (by decide)).2.1,
    (c9_well_formedness_preserved 0x28 (by decide)).2.2.1,
    (c9_well_formedness_preserved 0x28 (by decide)).2.2.2.1 0x27 (by decide),
    (c9_well_formedness_preserved 0x28 (by decide)).2.2.2.2.1 0x29 (by decide),
    (c9_well_formedness_preserved 0x28 (by decide)).2.2.2.2.2.1 2 0x38
      (by decide),
    (c9_well_formedness_preserved 0x28 (by decide)).2.2.2.2.2.2 0x18
      (by decide)⟩

/-- C10: on every well-formed code with a nonzero lane width, multiplying
the lane count by one returns exactly the same byte. -/
theorem c10_by_one_identity (t : Nat) (ht : WellFormed t)
    (h : lane_bits t ≠ 0) : by_n t 1 = some t := by
  have H : ∀ s, s < 256 → WellFormed s → ¬lane_bits s = 0 →
      by_n s 1 = some s := by
    decide
  exact H t ht.1 ht h

/-- C10, witness: `by_n` with one lane at the scalar 8-bit integer. -/
theorem c10_witness : WellFormed I8 ∧ by_n I8 1 = some I8 :=
  ⟨by decide, c10_by_one_identity I8 (by decide) (by decide)⟩

end Cretonne
